import Mathlib

/-!
Shallow embedding of the session communication controller of the
goldenchildren repository (frontend chat hooks).

Source files embedded here:
- `src/frontend/src/types/Message.ts` — `Sender`, `Message`.
- `src/unnamed/part_003` (WebSocket variant of `useChatbot`) — inbound-frame
  effect, `sendMessage` with HTTP fallback, `generateBrowserUse`.
- `src/unnamed/part_001` (atomic fallback variant of `useChatbot`) — `sendMessage`.
- `src/frontend/src/hooks/useChatbot.ts` (streaming variant) — `sendMessage`
  with incremental byte-stream accumulation.
- `src/frontend/src/hooks/useWebSocket.ts` — connection handlers and cleanup.
- `src/websocket_test.html` — close listener of `connectWebSocket`.
- `src/frontend/src/components/ChatWidgetForm.tsx` — `handleEnterPressed`.

React `setX(prev => ...)` updates are modelled as sequential state updates on
an explicit state record: the repository's handlers run to completion one at a
time, so the functional-update queue applies them in program order.
-/

namespace GoldenChildren

/-- Sender enum from `Message.ts`; the enum carries wire strings
`USER = 'user'`, `AI = 'ai'`. -/
inductive Sender where
  | USER
  | AI
deriving DecidableEq, Repr

/-- Wire string of a `Sender` value, as serialized by `JSON.stringify`
(`USER = 'user'`, `AI = 'ai'` in `Message.ts`). -/
def senderWire : Sender → String
  | .USER => "user"
  | .AI => "ai"

/-- `Message` from `Message.ts`: `{ text, sender, needsMoreInfo? }`. The
optional field is `none` when absent from the object literal. -/
structure Message where
  text : String
  sender : Sender
  needsMoreInfo : Option Bool := none
deriving DecidableEq, Repr

/-- `DEFAULT_MESSAGE` constant shared by all three `useChatbot` variants. -/
def DEFAULT_MESSAGE : Message := { text := "", sender := Sender.AI }

/-- Synthetic AI error message appended by every `catch`/empty-response
branch: `{ text: "Error: No response from server", sender: Sender.AI }`. -/
def serverErrorMessage : Message :=
  { text := "Error: No response from server", sender := Sender.AI }

/-- `FunctionCall` shape of a browser-use plan (part_000 `BrowserUseFunction`):
`{ name, args, description? }`. Arg values are kept as strings; their
structure is never inspected by the controller. -/
structure FunctionCall where
  name : String
  args : List (String × String)
  description : Option String := none
deriving DecidableEq, Repr

/-- `Plan` payload (part_000 `BrowserUsePlanProps.plan`):
`{ functions, explanation?, action_description? }`. -/
structure Plan where
  functions : List FunctionCall
  explanation : Option String := none
  action_description : Option String := none
deriving DecidableEq, Repr

/-- Inbound frames handled by the WebSocket variant of `useChatbot`
(part_003, effect on `lastMessage`), tagged by their `type` field. -/
inductive InboundFrame where
  | chat_response (content : String) (needs_more_info : Bool)
      (browser_use_plan : Option Plan)
  | browser_use_plan (plan : Plan)
  | error (message : String)
deriving DecidableEq, Repr

/-- Session state owned by the WebSocket variant of `useChatbot` (part_003):
`messages`, `currMessage`, `isGenerating`, `browserUsePlan`. -/
structure ChatbotState where
  messages : List Message
  currMessage : Message
  isGenerating : Bool
  browserUsePlan : Option Plan
deriving DecidableEq, Repr

/-- Initial state of the WebSocket variant of `useChatbot` (part_003):
empty log, draft `DEFAULT_MESSAGE`, not generating, no plan. -/
def initialChatbotState : ChatbotState :=
  { messages := [], currMessage := DEFAULT_MESSAGE, isGenerating := false,
    browserUsePlan := none }

/-- Inbound-frame effect of the WebSocket variant of `useChatbot`
(part_003 lines 82-106): `chat_response` appends `{text: content, sender: AI}`,
replaces the plan when `browser_use_plan` is present (JS truthiness: a present
object is truthy), and clears `isGenerating`; `browser_use_plan` replaces the
plan and clears `isGenerating`; `error` appends
`{text: "Error: " + message, sender: AI}` and clears `isGenerating`.
`currMessage` is never written by this effect. -/
def handleFrame (s : ChatbotState) : InboundFrame → ChatbotState
  | .chat_response content _needs_more_info bup =>
      let s1 : ChatbotState := { s with
        messages := s.messages ++ [{ text := content, sender := Sender.AI }] }
      let s2 : ChatbotState := match bup with
        | some p => { s1 with browserUsePlan := some p }
        | none => s1
      { s2 with isGenerating := false }
  | .browser_use_plan p =>
      { s with browserUsePlan := some p, isGenerating := false }
  | .error msg =>
      { s with
        messages := s.messages ++
          [{ text := "Error: " ++ msg, sender := Sender.AI }],
        isGenerating := false }

/-- One entry of an outbound `history` as it appears on the wire after
serialization: either an agnostic role pair (`{role, content}`, built by the
WebSocket path of part_003), or a raw internal `Message` object
(`{text, sender}` with the sender enum's wire string, as produced by
`JSON.stringify` of `history: messages` in both HTTP fallback bodies). -/
inductive WireHistoryEntry where
  | rolePair (role : String) (content : String)
  | rawMessage (text : String) (sender : String)
deriving DecidableEq, Repr

/-- History mapping of the WebSocket path of `sendMessage` (part_003 lines
127-130): `role` is `"user"` for `Sender.USER` and `"assistant"` otherwise. -/
def historyRolePairs (ms : List Message) : List WireHistoryEntry :=
  ms.map fun m =>
    WireHistoryEntry.rolePair
      (if m.sender = Sender.USER then "user" else "assistant") m.text

/-- Serialization of a raw `Message` list placed directly in an HTTP request
body (`history: messages` in part_001 line 32 and part_003 line 140):
each entry keeps its `text` and its sender enum wire string. -/
def historyRawWire (ms : List Message) : List WireHistoryEntry :=
  ms.map fun m => WireHistoryEntry.rawMessage m.text (senderWire m.sender)

/-- Outbound frames sent over the WebSocket (useWebSocket.ts
`sendChatMessage` / `generateBrowserUseFunctions`). -/
inductive OutboundFrame where
  | chat (message : String) (history : List WireHistoryEntry)
  | browser_use (action_description : String)
deriving DecidableEq, Repr

/-- Body of the HTTP fallback chat request (part_003 lines 136-146 and
part_001 lines 28-38): `{ message, history }` where `history` is the raw
`messages` array. -/
structure HttpChatBody where
  message : String
  history : List WireHistoryEntry
deriving DecidableEq, Repr

/-- Outcome of an awaited `fetch` as observed by the hook code: `nullBody`
(`res.body === null`), `ok data` (response parsed by `res.json()`), or
`errored` (the fetch or a subsequent step threw, landing in `catch`). -/
inductive FetchOutcome (α : Type) where
  | nullBody
  | ok (data : α)
  | errored
deriving DecidableEq, Repr

/-- Atomic JSON chat response fields consumed by part_001 and by the HTTP
fallback of part_003: `content`, `needs_more_info`, optional
`browser_use_plan`. -/
structure ChatResponseData where
  content : String
  needs_more_info : Bool
  browser_use_plan : Option Plan := none
deriving DecidableEq, Repr

/-- Result of one `sendMessage` call of the WebSocket variant: the final
state, the frame sent over the WebSocket (if the connected path ran), and the
HTTP fallback body (if the fallback path ran). -/
structure WsSendResult where
  state : ChatbotState
  wsFrame : Option OutboundFrame
  httpBody : Option HttpChatBody
deriving DecidableEq, Repr

/-- `sendMessage` of the WebSocket variant of `useChatbot` (part_003 lines
118-179). Appends the user message and sets `isGenerating`; when
`isConnected`, emits a `chat` frame whose history maps the pre-call log to
role pairs (the closure captures `messages` from before the append);
otherwise posts `{message, history: messages}` (raw log) to the fallback
endpoint and handles the response: `needs_more_info` branches both append
`{text: data.content, sender: AI}`, the plan is replaced only on the
`else` branch when `browser_use_plan` is present; a null body throws, and the
`catch` appends `"Error: No response from server"`; both terminal paths clear
`isGenerating`. `currMessage` is never touched. -/
def sendMessageWs (s : ChatbotState) (message : String) (isConnected : Bool)
    (outcome : FetchOutcome ChatResponseData) : WsSendResult :=
  let s1 : ChatbotState := { s with
    messages := s.messages ++ [{ text := message, sender := Sender.USER }],
    isGenerating := true }
  if isConnected then
    { state := s1,
      wsFrame := some (OutboundFrame.chat message (historyRolePairs s.messages)),
      httpBody := none }
  else
    let body : HttpChatBody :=
      { message := message, history := historyRawWire s.messages }
    match outcome with
    | .nullBody =>
        { state := { s1 with
            messages := s1.messages ++
              [{ text := "Error: No response from server", sender := Sender.AI }],
            isGenerating := false },
          wsFrame := none, httpBody := some body }
    | .ok data =>
        let s2 : ChatbotState :=
          if data.needs_more_info then
            { s1 with
              messages := s1.messages ++
                [{ text := data.content, sender := Sender.AI }] }
          else
            let s2a : ChatbotState := { s1 with
              messages := s1.messages ++
                [{ text := data.content, sender := Sender.AI }] }
            match data.browser_use_plan with
            | some p => { s2a with browserUsePlan := some p }
            | none => s2a
        { state := { s2 with isGenerating := false },
          wsFrame := none, httpBody := some body }
    | .errored =>
        { state := { s1 with
            messages := s1.messages ++
              [{ text := "Error: No response from server", sender := Sender.AI }],
            isGenerating := false },
          wsFrame := none, httpBody := some body }

/-- `generateBrowserUse` of the WebSocket variant (part_003 lines 182-214).
Sets `isGenerating`; when connected emits a `browser_use` frame; otherwise
posts to `/api/browser-use` and on success replaces the plan and clears
`isGenerating`; a null body throws and the `catch` only logs and clears
`isGenerating` — no log entry is appended on any failure path. -/
def generateBrowserUse (s : ChatbotState) (actionDescription : String)
    (isConnected : Bool) (outcome : FetchOutcome Plan) :
    ChatbotState × Option OutboundFrame :=
  let s1 : ChatbotState := { s with isGenerating := true }
  if isConnected then
    (s1, some (OutboundFrame.browser_use actionDescription))
  else
    match outcome with
    | .nullBody => ({ s1 with isGenerating := false }, none)
    | .ok data =>
        ({ s1 with browserUsePlan := some data, isGenerating := false }, none)
    | .errored => ({ s1 with isGenerating := false }, none)

/-- Connection-error effect of the WebSocket variant (part_003 lines
109-116): when the `useWebSocket` hook reports an error string, the effect
appends `{text: "Connection error: " + error + ". Falling back to HTTP.",
sender: AI}` to the log. It does NOT touch `isGenerating` (or any other
field), and the hook's graceful-close handler reports no error string at all,
so a duplex drop during an in-flight send leaves `isGenerating` stuck true. -/
def handleConnectionError (s : ChatbotState) (err : String) : ChatbotState :=
  { s with
    messages := s.messages ++
      [{ text := "Connection error: " ++ err ++ ". Falling back to HTTP.",
         sender := Sender.AI }] }

/-- State owned by the two fallback-only `useChatbot` variants (part_001 and
the streaming useChatbot.ts): `messages`, `currMessage`, `isGenerating`. -/
structure FallbackState where
  messages : List Message
  currMessage : Message
  isGenerating : Bool
deriving DecidableEq, Repr

/-- Initial state of the fallback-only variants: empty log, draft
`DEFAULT_MESSAGE`, not generating. -/
def initialFallbackState : FallbackState :=
  { messages := [], currMessage := DEFAULT_MESSAGE, isGenerating := false }

/-- `sendMessage` of the atomic fallback variant (part_001 lines 23-71).
Appends the user message, sets `isGenerating`, posts
`{message, history: messages}` (raw pre-call log). On a null body the code
early-returns (`return console.error("FAILED")`) appending nothing; on a
parsed response both `needs_more_info` branches append
`{text: data.content, sender: AI}` (the `else` branch's template literal of a
string equals the string); the `catch` appends
`"Error: No response from server"`; `finally` clears `isGenerating` on every
path. `currMessage` is never touched. -/
def sendMessageAtomic (s : FallbackState) (message : String)
    (outcome : FetchOutcome ChatResponseData) : FallbackState × HttpChatBody :=
  let s1 : FallbackState := { s with
    messages := s.messages ++ [{ text := message, sender := Sender.USER }],
    isGenerating := true }
  let body : HttpChatBody :=
    { message := message, history := historyRawWire s.messages }
  match outcome with
  | .nullBody => ({ s1 with isGenerating := false }, body)
  | .ok data =>
      let appended : Message :=
        if data.needs_more_info then
          { text := data.content, sender := Sender.AI }
        else
          { text := data.content, sender := Sender.AI }
      ({ s1 with
          messages := s1.messages ++ [appended],
          isGenerating := false }, body)
  | .errored =>
      ({ s1 with
          messages := s1.messages ++
            [{ text := "Error: No response from server", sender := Sender.AI }],
          isGenerating := false }, body)

/-- Body of a streaming response as observed by the while-loop of the
streaming `sendMessage` (useChatbot.ts lines 42-59): the ordered chunks the
reader delivered, and whether the exchange ended by `done` or by a thrown
exception at the next read (`endsInError = true`). -/
inductive StreamBody where
  | nullBody
  | stream (chunks : List String) (endsInError : Bool)
deriving DecidableEq, Repr

/-- Concatenation of decoded chunks in arrival order, as built by
`aiMessage += decodedValue` across loop iterations. -/
def joinChunks (cs : List String) : String := cs.foldl (· ++ ·) ""

/-- One pass of the read loop of the streaming `sendMessage` (useChatbot.ts
lines 42-59): each chunk is appended to the accumulator `aiMessage` and to
`currMessage.text` (the `setCurrMessage` functional update keeps the previous
sender). Returns the state after consuming the chunks and the accumulator. -/
def accumulateChunks (s : FallbackState) (acc : String) :
    List String → FallbackState × String
  | [] => (s, acc)
  | c :: cs =>
      accumulateChunks
        { s with currMessage :=
            { sender := s.currMessage.sender,
              text := s.currMessage.text ++ c } }
        (acc ++ c) cs

/-- `sendMessage` of the streaming variant (useChatbot.ts lines 23-83).
Appends the user message and sets `isGenerating`; posts `{query: message}`.
On `res.body === null` the code early-returns (`return console.error`)
appending nothing; otherwise it consumes the stream chunk by chunk. If a read
throws, the `catch` appends `"Error: No response from server"` and the draft
is NOT reset. On `done` with empty accumulator it appends the same error
message, otherwise it appends `{text: aiMessage, sender: AI}`; in both `done`
cases `setCurrMessage(DEFAULT_MESSAGE)` then resets the draft. `finally`
clears `isGenerating` on every path. -/
def sendMessageStreaming (s : FallbackState) (message : String)
    (body : StreamBody) : FallbackState :=
  let s1 : FallbackState := { s with
    messages := s.messages ++ [{ text := message, sender := Sender.USER }],
    isGenerating := true }
  match body with
  | .nullBody => { s1 with isGenerating := false }
  | .stream cs endsInError =>
      let r := accumulateChunks s1 "" cs
      let s2 := r.1
      let aiMessage := r.2
      if endsInError then
        { s2 with
          messages := s2.messages ++
            [{ text := "Error: No response from server", sender := Sender.AI }],
          isGenerating := false }
      else
        if aiMessage = "" then
          { s2 with
            messages := s2.messages ++
              [{ text := "Error: No response from server",
                 sender := Sender.AI }],
            currMessage := DEFAULT_MESSAGE,
            isGenerating := false }
        else
          { s2 with
            messages := s2.messages ++
              [{ text := aiMessage, sender := Sender.AI }],
            currMessage := DEFAULT_MESSAGE,
            isGenerating := false }

/-- State owned by the `useWebSocket` hook (useWebSocket.ts): `isConnected`
and the `error` string; `lastMessage` dispatching is modelled separately by
`handleFrame`. -/
structure WsHookState where
  isConnected : Bool
  error : Option String
deriving DecidableEq, Repr

/-- Actions a handler may schedule on the event loop; the only one relevant
here is a delayed reconnect attempt (`setTimeout(connectWebSocket, delayMs)`). -/
inductive ScheduledAction where
  | reconnect (delayMs : Nat)
deriving DecidableEq, Repr

/-- `socket.onopen` of useWebSocket.ts (lines 29-33): sets `isConnected` and
clears the error. -/
def hookOnOpen (s : WsHookState) : WsHookState :=
  { s with isConnected := true, error := none }

/-- `socket.onerror` of useWebSocket.ts (lines 46-50): records an error
string and clears `isConnected`. -/
def hookOnError (s : WsHookState) : WsHookState :=
  { s with error := some "WebSocket connection error", isConnected := false }

/-- `socket.onclose` of useWebSocket.ts (lines 52-55): only clears
`isConnected`; it schedules nothing — the hook contains no reconnect timer. -/
def hookOnClose (s : WsHookState) : WsHookState × List ScheduledAction :=
  ({ s with isConnected := false }, [])

/-- WebSocket ready states, as compared against by the cleanup of
useWebSocket.ts. -/
inductive ReadyState where
  | CONNECTING
  | OPEN
  | CLOSING
  | CLOSED
deriving DecidableEq, Repr

/-- Effect of the unmount cleanup of useWebSocket.ts (lines 60-64): calls
`socket.close()` exactly when the socket is `OPEN`, and cancels no timers
(none exist). Returns whether `close()` is called and the timers cancelled. -/
def hookCleanup (readyState : ReadyState) : Bool × List ScheduledAction :=
  (readyState = ReadyState.OPEN, [])

/-- Status banner state of the standalone test page (websocket_test.html). -/
structure TestPageState where
  statusText : String
  statusClass : String
deriving DecidableEq, Repr

/-- `close` listener of `connectWebSocket` in websocket_test.html (lines
193-200): updates the status banner and schedules exactly one reconnect via
`setTimeout(connectWebSocket, 5000)`; nothing ever cancels it. -/
def testPageOnClose (_s : TestPageState) : TestPageState × List ScheduledAction :=
  ({ statusText := "WebSocket: Disconnected",
     statusClass := "status disconnected" },
   [ScheduledAction.reconnect 5000])

/-- The `formSchema` of ChatWidgetForm.tsx accepts a text of length at least
one (`z.string().min(1)`). -/
def formSchemaAccepts (text : String) : Bool := 1 ≤ text.length

/-- `handleEnterPressed` of ChatWidgetForm.tsx (lines 41-46) composed with
`handleSubmit` (lines 34-39): returns whether `onSubmit` (the hook's
`sendMessage`) fires — only when `isGenerating` is false and the form value
passes `formSchema`. -/
def handleEnterPressed (isGenerating : Bool) (text : String) : Bool :=
  if isGenerating then false else formSchemaAccepts text

/-! Helper lemmas about the streaming accumulator. -/

/-- Folding string append over a list distributes over an appended seed. -/
theorem foldl_append_seed (l : List String) :
    ∀ (a b : String), l.foldl (· ++ ·) (a ++ b) = a ++ l.foldl (· ++ ·) b := by
  induction l with
  | nil => intro a b; rfl
  | cons c cs ih =>
      intro a b
      simp only [List.foldl]
      rw [String.append_assoc, ih]

/-- Unfolding `joinChunks` on a cons cell. -/
theorem joinChunks_cons (c : String) (cs : List String) :
    joinChunks (c :: cs) = c ++ joinChunks cs := by
  have h := foldl_append_seed cs c ""
  simp only [joinChunks, List.foldl]
  simpa using h

/-- Behaviour of the read loop: the accumulator collects the concatenated
chunks, the log and the busy flag are untouched, and the draft's text grows
by the concatenated chunks while its sender is preserved. -/
theorem accumulateChunks_spec (cs : List String) :
    ∀ (s : FallbackState) (acc : String),
      (accumulateChunks s acc cs).2 = acc ++ joinChunks cs ∧
      (accumulateChunks s acc cs).1.messages = s.messages ∧
      (accumulateChunks s acc cs).1.isGenerating = s.isGenerating ∧
      (accumulateChunks s acc cs).1.currMessage.text
        = s.currMessage.text ++ joinChunks cs ∧
      (accumulateChunks s acc cs).1.currMessage.sender
        = s.currMessage.sender := by
  induction cs with
  | nil =>
      intro s acc
      refine ⟨?_, rfl, rfl, ?_, rfl⟩ <;> simp [accumulateChunks, joinChunks]
  | cons c cs ih =>
      intro s acc
      have h := ih
        { s with currMessage :=
            { sender := s.currMessage.sender,
              text := s.currMessage.text ++ c } }
        (acc ++ c)
      obtain ⟨h1, h2, h3, h4, h5⟩ := h
      refine ⟨?_, ?_, ?_, ?_, ?_⟩ <;>
        simp_all [accumulateChunks, joinChunks_cons, String.append_assoc]

/-! Claim theorems. -/

/-- C8: a `chat_response` frame lacking `browser_use_plan` leaves the plan
unchanged; one carrying plan data replaces the plan wholesale; and the log,
busy flag and draft are updated independently of the plan field. -/
theorem C8_chat_response_plan_effect
    (s : ChatbotState) (c : String) (b : Bool) (p : Plan) (q : Option Plan) :
    (handleFrame s (InboundFrame.chat_response c b none)).browserUsePlan
        = s.browserUsePlan ∧
    (handleFrame s (InboundFrame.chat_response c b (some p))).browserUsePlan
        = some p ∧
    (handleFrame s (InboundFrame.chat_response c b q)).messages
        = s.messages ++ [{ text := c, sender := Sender.AI }] ∧
    (handleFrame s (InboundFrame.chat_response c b q)).isGenerating = false ∧
    (handleFrame s (InboundFrame.chat_response c b q)).currMessage
        = s.currMessage := by
  refine ⟨?_, ?_, ?_, ?_, ?_⟩ <;> cases q <;> simp [handleFrame]

/-- C9: in the streaming fallback, end-of-stream with an empty accumulator
appends the synthetic AI error message, while a non-empty accumulator appends
the accumulated text as the AI message; in both cases busy is cleared. -/
theorem C9_empty_stream_is_failure (s : FallbackState) (m : String)
    (cs : List String) :
    (sendMessageStreaming s m (StreamBody.stream cs false)).messages
        = s.messages ++
          [{ text := m, sender := Sender.USER },
           if joinChunks cs = "" then
             { text := "Error: No response from server", sender := Sender.AI }
           else { text := joinChunks cs, sender := Sender.AI }] ∧
    (sendMessageStreaming s m (StreamBody.stream cs false)).isGenerating
        = false := by
  obtain ⟨h1, h2, h3, h4, h5⟩ := accumulateChunks_spec cs
    { s with
      messages := s.messages ++ [{ text := m, sender := Sender.USER }],
      isGenerating := true } ""
  have hji : (accumulateChunks
      { s with
        messages := s.messages ++ [{ text := m, sender := Sender.USER }],
        isGenerating := true } "" cs).2 = joinChunks cs := by
    rw [h1]; simp
  constructor
  · by_cases hj : joinChunks cs = "" <;>
      simp [sendMessageStreaming, hji, h2, hj]
  · by_cases hj : joinChunks cs = "" <;>
      simp [sendMessageStreaming, hji, hj]

/-- C10: in the fallback chat paths the resulting log, busy flag and draft do
not depend on the `needs_more_info` flag of the response: two responses that
differ only in the flag yield identical atomic-variant results and identical
log, busy flag and draft in the part_003 HTTP fallback. -/
theorem C10_needs_more_info_noninterference (t : FallbackState)
    (s : ChatbotState) (m c : String) (p : Option Plan) (b1 b2 : Bool) :
    sendMessageAtomic t m (FetchOutcome.ok
        { content := c, needs_more_info := b1, browser_use_plan := p })
      = sendMessageAtomic t m (FetchOutcome.ok
        { content := c, needs_more_info := b2, browser_use_plan := p }) ∧
    (sendMessageWs s m false (FetchOutcome.ok
        { content := c, needs_more_info := b1, browser_use_plan := p })).state.messages
      = (sendMessageWs s m false (FetchOutcome.ok
        { content := c, needs_more_info := b2, browser_use_plan := p })).state.messages ∧
    (sendMessageWs s m false (FetchOutcome.ok
        { content := c, needs_more_info := b1, browser_use_plan := p })).state.isGenerating
      = (sendMessageWs s m false (FetchOutcome.ok
        { content := c, needs_more_info := b2, browser_use_plan := p })).state.isGenerating ∧
    (sendMessageWs s m false (FetchOutcome.ok
        { content := c, needs_more_info := b1, browser_use_plan := p })).state.currMessage
      = (sendMessageWs s m false (FetchOutcome.ok
        { content := c, needs_more_info := b2, browser_use_plan := p })).state.currMessage := by
  refine ⟨?_, ?_, ?_, ?_⟩ <;>
    cases b1 <;> cases b2 <;> cases p <;>
      simp [sendMessageAtomic, sendMessageWs]

/-- C1 counterexample: the code appends the AI message without recording
`needs_more_info`. The dispatcher appends `{text, sender: AI}` with no
`needsMoreInfo` field even when the frame carries `needs_more_info = true`,
and the claim's concrete atomic-fallback scenario ends with an AI entry whose
`needsMoreInfo` is absent, not `false` — so the claimed final log is not the
one produced. -/
theorem C1_counterexample :
    (handleFrame initialChatbotState
        (InboundFrame.chat_response "x" true none)).messages
      = [{ text := "x", sender := Sender.AI, needsMoreInfo := none }] ∧
    (sendMessageAtomic initialFallbackState "hi"
        (FetchOutcome.ok { content := "hello", needs_more_info := false })).1.messages
      ≠ [{ text := "hi", sender := Sender.USER },
         { text := "hello", sender := Sender.AI, needsMoreInfo := some false }] := by
  decide

/-- C1 amended: a `chat_response` frame appends `{text: content, sender: AI}`
WITHOUT recording `needs_more_info`, replaces the plan when
`browser_use_plan` is present, leaves the draft unchanged (the WebSocket
variant never writes it), and clears busy; and the concrete atomic-fallback
scenario ends with log `[{text:"hi",sender:USER},{text:"hello",sender:AI}]`
(no `needsMoreInfo` field) and `busy=false`. -/
theorem C1_chat_response_effect
    (s : ChatbotState) (c : String) (b : Bool) (p : Plan) (q : Option Plan) :
    (handleFrame s (InboundFrame.chat_response c b q)).messages
        = s.messages ++
          [{ text := c, sender := Sender.AI, needsMoreInfo := none }] ∧
    (handleFrame s (InboundFrame.chat_response c b (some p))).browserUsePlan
        = some p ∧
    (handleFrame s (InboundFrame.chat_response c b q)).currMessage
        = s.currMessage ∧
    (handleFrame s (InboundFrame.chat_response c b q)).isGenerating = false ∧
    (sendMessageAtomic initialFallbackState "hi"
        (FetchOutcome.ok { content := "hello", needs_more_info := false })).1
      = { messages := [{ text := "hi", sender := Sender.USER },
                       { text := "hello", sender := Sender.AI }],
          currMessage := DEFAULT_MESSAGE, isGenerating := false } := by
  refine ⟨?_, ?_, ?_, ?_, by decide⟩ <;> cases q <;> simp [handleFrame]

/-- C2 counterexample: a `sendMessage` call made directly on the hook while
`busy == true` is not rejected — starting from an empty log with
`isGenerating = true`, the call changes the log, so it is not a no-op. -/
theorem C2_counterexample :
    (sendMessageAtomic
        { messages := [], currMessage := DEFAULT_MESSAGE, isGenerating := true }
        "hi" (FetchOutcome.ok { content := "hello", needs_more_info := false })).1.messages
      ≠ [] := by
  decide

/-- C2 amended: the busy guard lives only in the UI form — `handleEnterPressed`
fires no submit while `isGenerating` — while the hook-level operations perform
no busy check: called with `isGenerating = true`, every `sendMessage` variant
still appends the user message (followed by whatever the exchange produces),
and `generateBrowserUse` still emits the `browser_use` frame when connected
and still performs the fallback request (replacing the plan on success) when
not. -/
theorem C2_busy_guard_in_form_only (text m ad : String) (t : FallbackState)
    (s : ChatbotState) (conn : Bool) (o : FetchOutcome ChatResponseData)
    (b : StreamBody) (p : Plan) :
    handleEnterPressed true text = false ∧
    (∃ rest,
      (sendMessageAtomic { t with isGenerating := true } m o).1.messages
        = t.messages ++ [{ text := m, sender := Sender.USER }] ++ rest) ∧
    (∃ rest,
      (sendMessageStreaming { t with isGenerating := true } m b).messages
        = t.messages ++ [{ text := m, sender := Sender.USER }] ++ rest) ∧
    (∃ rest,
      (sendMessageWs { s with isGenerating := true } m conn o).state.messages
        = s.messages ++ [{ text := m, sender := Sender.USER }] ++ rest) ∧
    (generateBrowserUse { s with isGenerating := true } ad true
        (FetchOutcome.ok p)).2 = some (OutboundFrame.browser_use ad) ∧
    (generateBrowserUse { s with isGenerating := true } ad false
        (FetchOutcome.ok p)).1.browserUsePlan = some p := by
  refine ⟨rfl, ?_, ?_, ?_, by simp [generateBrowserUse],
    by simp [generateBrowserUse]⟩
  · cases o with
    | nullBody => exact ⟨[], by simp [sendMessageAtomic]⟩
    | ok d =>
        refine ⟨[{ text := d.content, sender := Sender.AI }], ?_⟩
        by_cases hb : d.needs_more_info <;> simp [sendMessageAtomic, hb]
    | errored =>
        exact ⟨[serverErrorMessage], by simp [sendMessageAtomic, serverErrorMessage]⟩
  · cases b with
    | nullBody => exact ⟨[], by simp [sendMessageStreaming]⟩
    | stream cs e =>
        obtain ⟨h1, h2, h3, h4, h5⟩ := accumulateChunks_spec cs
          { t with
            messages := t.messages ++ [{ text := m, sender := Sender.USER }],
            isGenerating := true } ""
        cases e with
        | false =>
            by_cases hj : (accumulateChunks
                { t with
                  messages :=
                    t.messages ++ [{ text := m, sender := Sender.USER }],
                  isGenerating := true } "" cs).2 = ""
            · exact ⟨[serverErrorMessage],
                by simp [sendMessageStreaming, hj, h2, serverErrorMessage]⟩
            · refine ⟨[{ text := (accumulateChunks
                { t with
                  messages :=
                    t.messages ++ [{ text := m, sender := Sender.USER }],
                  isGenerating := true } "" cs).2, sender := Sender.AI }], ?_⟩
              simp [sendMessageStreaming, hj, h2]
        | true =>
            exact ⟨[serverErrorMessage],
              by simp [sendMessageStreaming, h2, serverErrorMessage]⟩
  · cases conn with
    | true => exact ⟨[], by simp [sendMessageWs]⟩
    | false =>
        cases o with
        | nullBody =>
            exact ⟨[serverErrorMessage],
              by simp [sendMessageWs, serverErrorMessage]⟩
        | ok d =>
            refine ⟨[{ text := d.content, sender := Sender.AI }], ?_⟩
            by_cases hb : d.needs_more_info
            · simp [sendMessageWs, hb]
            · cases hp : d.browser_use_plan <;> simp [sendMessageWs, hb, hp]
        | errored =>
            exact ⟨[serverErrorMessage],
              by simp [sendMessageWs, serverErrorMessage]⟩

/-- C3 counterexample: after `sendMessage("hi")` over a stream that delivers
chunk `"Hel"` and then throws, the exchange is over (`busy = false`) yet the
draft still holds `"Hel"` — the catch path appends the error message without
clearing the draft, refuting both "non-empty only while busy" and "cleared on
every error path". -/
theorem C3_counterexample :
    (sendMessageStreaming initialFallbackState "hi"
        (StreamBody.stream ["Hel"] true)).currMessage.text ≠ "" ∧
    (sendMessageStreaming initialFallbackState "hi"
        (StreamBody.stream ["Hel"] true)).isGenerating = false := by
  decide

/-- C3 amended: in the streaming variant the draft is reset to
`DEFAULT_MESSAGE` together with the appended AI (or synthetic error) message
on both end-of-stream paths, but on the exception path the draft is NOT
cleared: it retains the chunks accumulated before the error while busy is
already false. -/
theorem C3_draft_clearing (s : FallbackState) (m : String)
    (cs : List String) :
    (sendMessageStreaming s m (StreamBody.stream cs false)).currMessage
        = DEFAULT_MESSAGE ∧
    (sendMessageStreaming s m (StreamBody.stream cs true)).currMessage.text
        = s.currMessage.text ++ joinChunks cs ∧
    (sendMessageStreaming s m (StreamBody.stream cs true)).isGenerating
        = false := by
  obtain ⟨h1, h2, h3, h4, h5⟩ := accumulateChunks_spec cs
    { s with
      messages := s.messages ++ [{ text := m, sender := Sender.USER }],
      isGenerating := true } ""
  refine ⟨?_, ?_, ?_⟩
  · by_cases hj : (accumulateChunks
        { s with
          messages := s.messages ++ [{ text := m, sender := Sender.USER }],
          isGenerating := true } "" cs).2 = "" <;>
      simp [sendMessageStreaming, hj]
  · simp [sendMessageStreaming, h4]
  · simp [sendMessageStreaming]

/-- C4 counterexample: a failed round trip does not grow the log by exactly 1
entry — from an empty log, a `sendMessage` whose fetch throws ends with 2
entries (the USER entry plus the AI error entry). -/
theorem C4_counterexample :
    (sendMessageStreaming initialFallbackState "hi"
        (StreamBody.stream [] true)).messages.length ≠ 1 := by
  decide

/-- C4 amended: each round trip appends the USER entry first; successful
round trips add one AI entry after it (2 entries total), failed round trips
also add one AI error entry after it (2 entries total), except the null-body
early return of the fallback-only variants which appends only the USER entry
(1 entry total). This holds on the WebSocket-connected path (the send
composed with the terminal `chat_response` or `error` frame) as well as on
every fallback path. -/
theorem C4_log_growth (s : FallbackState) (w : ChatbotState) (m c e : String)
    (cs : List String) (d : ChatResponseData) (nb : Bool) (q : Option Plan)
    (o : FetchOutcome ChatResponseData) :
    (∃ a, (handleFrame (sendMessageWs w m true o).state
          (InboundFrame.chat_response c nb q)).messages
        = w.messages ++ [{ text := m, sender := Sender.USER }, a] ∧
        a.sender = Sender.AI) ∧
    (∃ a, (handleFrame (sendMessageWs w m true o).state
          (InboundFrame.error e)).messages
        = w.messages ++ [{ text := m, sender := Sender.USER }, a] ∧
        a.sender = Sender.AI) ∧
    (∃ a, (sendMessageStreaming s m (StreamBody.stream cs false)).messages
        = s.messages ++ [{ text := m, sender := Sender.USER }, a] ∧
        a.sender = Sender.AI) ∧
    (∃ a, (sendMessageStreaming s m (StreamBody.stream cs true)).messages
        = s.messages ++ [{ text := m, sender := Sender.USER }, a] ∧
        a.sender = Sender.AI) ∧
    (sendMessageStreaming s m StreamBody.nullBody).messages
        = s.messages ++ [{ text := m, sender := Sender.USER }] ∧
    (∃ a, (sendMessageWs w m false (FetchOutcome.ok d)).state.messages
        = w.messages ++ [{ text := m, sender := Sender.USER }, a] ∧
        a.sender = Sender.AI) ∧
    (∃ a, (sendMessageWs w m false FetchOutcome.errored).state.messages
        = w.messages ++ [{ text := m, sender := Sender.USER }, a] ∧
        a.sender = Sender.AI) ∧
    (∃ a, (sendMessageWs w m false FetchOutcome.nullBody).state.messages
        = w.messages ++ [{ text := m, sender := Sender.USER }, a] ∧
        a.sender = Sender.AI) ∧
    (∃ a, (sendMessageAtomic s m (FetchOutcome.ok d)).1.messages
        = s.messages ++ [{ text := m, sender := Sender.USER }, a] ∧
        a.sender = Sender.AI) ∧
    (∃ a, (sendMessageAtomic s m FetchOutcome.errored).1.messages
        = s.messages ++ [{ text := m, sender := Sender.USER }, a] ∧
        a.sender = Sender.AI) ∧
    (sendMessageAtomic s m FetchOutcome.nullBody).1.messages
        = s.messages ++ [{ text := m, sender := Sender.USER }] := by
  obtain ⟨h1, h2, h3, h4, h5⟩ := accumulateChunks_spec cs
    { s with
      messages := s.messages ++ [{ text := m, sender := Sender.USER }],
      isGenerating := true } ""
  refine ⟨?_, ?_, ?_, ?_, ?_, ?_, ?_, ?_, ?_, ?_, ?_⟩
  · refine ⟨{ text := c, sender := Sender.AI }, ?_, rfl⟩
    cases q <;> simp [sendMessageWs, handleFrame]
  · refine ⟨{ text := "Error: " ++ e, sender := Sender.AI }, ?_, rfl⟩
    simp [sendMessageWs, handleFrame]
  · by_cases hj : (accumulateChunks
        { s with
          messages := s.messages ++ [{ text := m, sender := Sender.USER }],
          isGenerating := true } "" cs).2 = ""
    · exact ⟨serverErrorMessage,
        by simp [sendMessageStreaming, hj, h2, serverErrorMessage], rfl⟩
    · refine ⟨{ text := (accumulateChunks
        { s with
          messages := s.messages ++ [{ text := m, sender := Sender.USER }],
          isGenerating := true } "" cs).2, sender := Sender.AI }, ?_, rfl⟩
      simp [sendMessageStreaming, hj, h2]
  · exact ⟨serverErrorMessage,
      by simp [sendMessageStreaming, h2, serverErrorMessage], rfl⟩
  · simp [sendMessageStreaming]
  · refine ⟨{ text := d.content, sender := Sender.AI }, ?_, rfl⟩
    by_cases hb : d.needs_more_info
    · simp [sendMessageWs, hb]
    · cases hp : d.browser_use_plan <;> simp [sendMessageWs, hb, hp]
  · exact ⟨serverErrorMessage,
      by simp [sendMessageWs, serverErrorMessage], rfl⟩
  · exact ⟨serverErrorMessage,
      by simp [sendMessageWs, serverErrorMessage], rfl⟩
  · refine ⟨{ text := d.content, sender := Sender.AI }, ?_, rfl⟩
    by_cases hb : d.needs_more_info <;> simp [sendMessageAtomic, hb]
  · exact ⟨serverErrorMessage,
      by simp [sendMessageAtomic, serverErrorMessage], rfl⟩
  · simp [sendMessageAtomic]

/-- C5 counterexample: a failed `generateBrowserUse` over the HTTP fallback
appends no log entry at all — the log is unchanged (empty) although busy is
cleared — so not every failure produces an observable AI error message; and
a duplex transport error right after an in-flight WebSocket send leaves busy
stuck true: the connection-error effect appends its entry without clearing
`isGenerating`. -/
theorem C5_counterexample :
    (generateBrowserUse initialChatbotState "do it" false
        FetchOutcome.errored).1.messages = [] ∧
    (generateBrowserUse initialChatbotState "do it" false
        FetchOutcome.errored).1.isGenerating = false ∧
    (handleConnectionError
        (sendMessageWs initialChatbotState "hi" true
          FetchOutcome.errored).state
        "WebSocket connection error").isGenerating = true := by
  decide

/-- C5 amended: the fetch-failure paths clear busy, and the chat
`sendMessage` fetch-failure paths (fetch rejected, null body in the WebSocket
variant, stream exception, empty stream) append exactly one AI error entry
after the USER entry; but (a) two fetch-failure paths append no log entry at
all — the null-body early return of the fallback-only variants, and every
failure of `generateBrowserUse` — and (b) a duplex transport failure during
an in-flight WebSocket send clears busy on no path: the connection-error
effect appends a "Connection error" entry without touching busy, the hook's
close handler changes nothing but the connection flag, so busy stays stuck
true after the drop. -/
theorem C5_failure_degradation (s : FallbackState) (w : ChatbotState)
    (m a e : String) (cs : List String) (o : FetchOutcome ChatResponseData)
    (h : WsHookState) :
    ((handleConnectionError w e).messages
        = w.messages ++
          [{ text := "Connection error: " ++ e ++ ". Falling back to HTTP.",
             sender := Sender.AI }] ∧
     (handleConnectionError w e).isGenerating = w.isGenerating) ∧
    (sendMessageWs w m true o).state.isGenerating = true ∧
    (handleConnectionError (sendMessageWs w m true o).state e).isGenerating
        = true ∧
    (hookOnClose h).1.error = h.error ∧
    ((sendMessageStreaming s m (StreamBody.stream cs true)).messages
        = s.messages ++
          [{ text := m, sender := Sender.USER }, serverErrorMessage] ∧
     (sendMessageStreaming s m (StreamBody.stream cs true)).isGenerating
        = false) ∧
    (sendMessageStreaming s m (StreamBody.stream [] false)).messages
        = s.messages ++
          [{ text := m, sender := Sender.USER }, serverErrorMessage] ∧
    ((sendMessageAtomic s m FetchOutcome.errored).1.messages
        = s.messages ++
          [{ text := m, sender := Sender.USER }, serverErrorMessage] ∧
     (sendMessageAtomic s m FetchOutcome.errored).1.isGenerating = false) ∧
    ((sendMessageWs w m false FetchOutcome.errored).state.messages
        = w.messages ++
          [{ text := m, sender := Sender.USER }, serverErrorMessage] ∧
     (sendMessageWs w m false FetchOutcome.errored).state.isGenerating
        = false) ∧
    ((sendMessageWs w m false FetchOutcome.nullBody).state.messages
        = w.messages ++
          [{ text := m, sender := Sender.USER }, serverErrorMessage] ∧
     (sendMessageWs w m false FetchOutcome.nullBody).state.isGenerating
        = false) ∧
    ((sendMessageStreaming s m StreamBody.nullBody).messages
        = s.messages ++ [{ text := m, sender := Sender.USER }] ∧
     (sendMessageStreaming s m StreamBody.nullBody).isGenerating = false) ∧
    ((sendMessageAtomic s m FetchOutcome.nullBody).1.messages
        = s.messages ++ [{ text := m, sender := Sender.USER }] ∧
     (sendMessageAtomic s m FetchOutcome.nullBody).1.isGenerating = false) ∧
    ((generateBrowserUse w a false FetchOutcome.errored).1.messages
        = w.messages ∧
     (generateBrowserUse w a false FetchOutcome.errored).1.isGenerating
        = false) ∧
    ((generateBrowserUse w a false FetchOutcome.nullBody).1.messages
        = w.messages ∧
     (generateBrowserUse w a false FetchOutcome.nullBody).1.isGenerating
        = false) := by
  obtain ⟨h1, h2, h3, h4, h5⟩ := accumulateChunks_spec cs
    { s with
      messages := s.messages ++ [{ text := m, sender := Sender.USER }],
      isGenerating := true } ""
  refine ⟨⟨?_, ?_⟩, ?_, ?_, ?_, ⟨?_, ?_⟩, ?_, ⟨?_, ?_⟩, ⟨?_, ?_⟩, ⟨?_, ?_⟩,
    ⟨?_, ?_⟩, ⟨?_, ?_⟩, ⟨?_, ?_⟩, ⟨?_, ?_⟩⟩ <;>
    simp [sendMessageStreaming, sendMessageAtomic, sendMessageWs,
      generateBrowserUse, serverErrorMessage, handleConnectionError,
      hookOnClose, h2, accumulateChunks, joinChunks]

/-- C6 counterexample: the close handler of the `useWebSocket` transport hook
schedules no reconnect at all — after a close from the connected state the
list of scheduled actions is empty, not a single 5-second reconnect. -/
theorem C6_counterexample :
    (hookOnClose { isConnected := true, error := none }).2
      ≠ [ScheduledAction.reconnect 5000] := by
  decide

/-- C6 amended: the `useWebSocket` hook's close handler only clears
`isConnected` and schedules nothing, and its unmount cleanup cancels no timer
(none exists); only the standalone test page's close listener schedules
exactly one reconnect attempt with a fixed 5000 ms delay, and nothing ever
cancels it. -/
theorem C6_reconnect_policy (s : WsHookState) (t : TestPageState)
    (r : ReadyState) :
    (hookOnClose s).1.isConnected = false ∧
    (hookOnClose s).2 = [] ∧
    (hookCleanup r).2 = [] ∧
    (testPageOnClose t).2 = [ScheduledAction.reconnect 5000] :=
  ⟨rfl, rfl, rfl, rfl⟩

/-- C7 counterexample: with prior log `[{text:"a", sender:AI}]`, the HTTP
fallback chat request of the WebSocket variant carries the raw log entry
`{text:"a", sender:"ai"}` — the internal sender enum's wire value — rather
than the role pair `{role:"assistant", content:"a"}`. -/
theorem C7_counterexample :
    (sendMessageWs
        { messages := [{ text := "a", sender := Sender.AI }],
          currMessage := DEFAULT_MESSAGE, isGenerating := false,
          browserUsePlan := none } "hi" false
        (FetchOutcome.ok { content := "x", needs_more_info := false })).httpBody
      = some { message := "hi",
               history := [WireHistoryEntry.rawMessage "a" "ai"] } ∧
    [WireHistoryEntry.rawMessage "a" "ai"]
      ≠ historyRolePairs [{ text := "a", sender := Sender.AI }] := by
  decide

/-- C7 amended: only the WebSocket chat frame maps the full prior log to
`{role, content}` pairs; both HTTP fallback chat bodies send the prior log as
raw `{text, sender}` entries carrying the internal sender enum's wire
values. -/
theorem C7_history_wire_format (s : ChatbotState) (t : FallbackState)
    (m : String) (o : FetchOutcome ChatResponseData) :
    (sendMessageWs s m true o).wsFrame
        = some (OutboundFrame.chat m (historyRolePairs s.messages)) ∧
    (sendMessageWs s m false o).httpBody
        = some { message := m, history := historyRawWire s.messages } ∧
    (sendMessageAtomic t m o).2
        = { message := m, history := historyRawWire t.messages } := by
  refine ⟨by simp [sendMessageWs], ?_, ?_⟩ <;>
    cases o <;> simp [sendMessageWs, sendMessageAtomic]

end GoldenChildren
